import Mathlib

/-!
Shallow embedding of the lead-intake CRUD application (buyer leads),
translated from the TypeScript source:
  - `src/frontend/src/lib/validations.ts` (zod schemas),
  - `src/frontend/src/app/api/buyers/[id]/route.ts` (PUT/DELETE and CSV import),
  - `src/frontend/src/app/api/buyers/export/route.ts` (list GET and export GET),
  - `src/unnamed/part_012` (rate limiter),
  - `src/backend/src/seed.ts` (relational schema; cascade on buyer_history).

Timestamps are modelled as natural numbers; the stored `updatedAt` and the
client token are compared for exact equality, as the code compares the ISO
rendering of the stored timestamp with the token string (the rendering is
injective on timestamps). Random UUIDs are supplied by an id-generator
parameter. External libraries (zod's email regex, Papa.parse) are not
repository code; the email format check is modelled as an abstract executable
predicate and the import pipeline starts from the parsed row list.
-/

namespace LeadBuyers

/-! ## Enumerations (`validations.ts` lines 4-10) -/

inductive City where
  | Chandigarh | Mohali | Zirakpur | Panchkula | Other
  deriving DecidableEq, Repr

inductive PropertyType where
  | Apartment | Villa | Plot | Office | Retail
  deriving DecidableEq, Repr

inductive BHK where
  | one | two | three | four | Studio
  deriving DecidableEq, Repr

inductive Purpose where
  | Buy | Rent
  deriving DecidableEq, Repr

inductive Timeline where
  | zeroToThreeM | threeToSixM | moreThanSixM | Exploring
  deriving DecidableEq, Repr

inductive Source where
  | Website | Referral | WalkIn | Call | Other
  deriving DecidableEq, Repr

inductive Status where
  | New | Qualified | Contacted | Visited | Negotiation | Converted | Dropped
  deriving DecidableEq, Repr

/-! ## Buyer record (`seed.ts` buyers table, lines 253-275) -/

structure Buyer where
  id : String
  fullName : String
  email : Option String
  phone : String
  city : City
  propertyType : PropertyType
  bhk : Option BHK
  purpose : Purpose
  budgetMin : Option Int
  budgetMax : Option Int
  timeline : Timeline
  source : Source
  status : Status
  notes : Option String
  tags : List String
  ownerId : String
  createdAt : Nat
  updatedAt : Nat
  deriving DecidableEq, Repr

/-! ## Validation (`validations.ts` buyerSchema, lines 13-61)

zod semantics: the `.refine` clauses chained on `z.object` run only when the
base object parse succeeds; when the base parse fails only the base issues are
reported. When the base parse succeeds, both refinements run independently and
their issues are collected. -/

/-- Phone rule from `z.string().regex(/^\d{10,15}$/)`: digits only, length
10-15. -/
def phoneOk (p : String) : Bool :=
  p.toList.all Char.isDigit && decide (10 ≤ p.length) && decide (p.length ≤ 15)

/-- Modelled from the JavaScript string builtin `trim` (not repository
code): drop leading and trailing whitespace. -/
def jsTrim (s : String) : String :=
  ⟨((s.data.dropWhile Char.isWhitespace).reverse.dropWhile
      Char.isWhitespace).reverse⟩

/-- Modelled from the JavaScript string builtin `toLowerCase` (not
repository code). -/
def jsToLower (s : String) : String :=
  ⟨s.data.map Char.toLower⟩

/-- Split a character list at every occurrence of `c` (the JavaScript
`split` builtin on a one-character separator). -/
def splitChar (c : Char) : List Char → List (List Char)
  | [] => [[]]
  | x :: xs =>
    if x = c then [] :: splitChar c xs
    else
      match splitChar c xs with
      | [] => [[x]]
      | y :: ys => (x :: y) :: ys

/-- Modelled from the zod library (external dependency, not repository code):
`z.string().email()` accepts a string with exactly one `@`, a nonempty local
part and a domain of at least two nonempty dot-separated labels. -/
def emailFormatOk (e : String) : Bool :=
  match splitChar (Char.ofNat 64) e.data with
  | [loc, dom] =>
      decide (loc.length > 0) &&
      (splitChar (Char.ofNat 46) dom).all (fun lab => decide (lab.length > 0)) &&
      decide ((splitChar (Char.ofNat 46) dom).length ≥ 2)
  | _ => false

/-- One violation per validation rule of `buyerSchema`; the two `.refine`
clauses are `bhkRequired` (path bhk) and `budgetMaxLtMin` (path budgetMax). -/
inductive Violation where
  | fullNameTooShort
  | fullNameTooLong
  | emailInvalid
  | phoneInvalid
  | budgetMinNotPositive
  | budgetMaxNotPositive
  | notesTooLong
  | bhkRequired
  | budgetMaxLtMin
  deriving DecidableEq, Repr

/-- Candidate record for `buyerSchema` (enums already well-formed; zod enum
failures would be further base issues and the claims quantify over valid
enum values). `email = none` stands for an absent field or the empty string
literal, both accepted by `.optional().or(z.literal(''))`. -/
structure CandidateBuyer where
  fullName : String
  email : Option String
  phone : String
  city : City
  propertyType : PropertyType
  bhk : Option BHK
  purpose : Purpose
  budgetMin : Option Int
  budgetMax : Option Int
  timeline : Timeline
  source : Source
  status : Option Status
  notes : Option String
  tags : List String
  deriving DecidableEq, Repr

/-- Base-object issues of `buyerSchema` (field formats), before refinements. -/
def baseViolations (r : CandidateBuyer) : List Violation :=
  (if r.fullName.length < 2 then [Violation.fullNameTooShort] else []) ++
  (if r.fullName.length > 80 then [Violation.fullNameTooLong] else []) ++
  (match r.email with
   | some e => if emailFormatOk e then [] else [Violation.emailInvalid]
   | none => []) ++
  (if phoneOk r.phone then [] else [Violation.phoneInvalid]) ++
  (match r.budgetMin with
   | some n => if n ≤ 0 then [Violation.budgetMinNotPositive] else []
   | none => []) ++
  (match r.budgetMax with
   | some n => if n ≤ 0 then [Violation.budgetMaxNotPositive] else []
   | none => []) ++
  (match r.notes with
   | some s => if s.length > 1000 then [Violation.notesTooLong] else []
   | none => [])

/-- The two chained `.refine` clauses (lines 43-61). The budget refinement
guards on JavaScript truthiness: a budget equal to 0 short-circuits the
check. -/
def refineViolations (r : CandidateBuyer) : List Violation :=
  (if (r.propertyType = PropertyType.Apartment ∨ r.propertyType = PropertyType.Villa) ∧
      r.bhk = none
   then [Violation.bhkRequired] else []) ++
  (match r.budgetMin, r.budgetMax with
   | some mn, some mx =>
       if mn ≠ 0 ∧ mx ≠ 0 ∧ mx < mn then [Violation.budgetMaxLtMin] else []
   | _, _ => [])

/-- `buyerSchema` validation: base issues; refinements only when the base
parse succeeded (zod `ZodEffects` semantics). -/
def validateBuyer (r : CandidateBuyer) : List Violation :=
  let base := baseViolations r
  if base = [] then refineViolations r else base

/-! ## History entries (`seed.ts` buyer_history table, lines 280-286) -/

/-- A typed rendering of one buyer field's value, used in history diffs. -/
inductive FieldVal where
  | vStr (s : String)
  | vOptStr (s : Option String)
  | vCity (c : City)
  | vPT (t : PropertyType)
  | vBhk (b : Option BHK)
  | vPurpose (p : Purpose)
  | vBudget (b : Option Int)
  | vTimeline (t : Timeline)
  | vSource (s : Source)
  | vStatus (s : Status)
  | vTags (ts : List String)
  deriving DecidableEq, Repr

/-- The jsonb `diff` column: a field-change map for PUT, a from-nothing record
for CSV import, and the fixed created marker for single POST create. -/
inductive Diff where
  | fieldDiff (changes : List (String × FieldVal × FieldVal))
  | createDiff (toRec : Buyer)
  | createdMarker
  deriving DecidableEq, Repr

structure HistoryEntry where
  id : String
  buyerId : String
  changedBy : String
  changedAt : Nat
  diff : Diff
  deriving DecidableEq, Repr

/-- Relational store: buyers table plus buyer_history table. -/
structure Store where
  buyers : List Buyer
  history : List HistoryEntry
  deriving DecidableEq, Repr

/-! ## Rate limiter (`src/unnamed/part_012`) -/

structure RateLimitResult where
  success : Bool
  limit : Nat
  remaining : Nat
  reset : Nat
  deriving DecidableEq, Repr

/-- `rateLimiter`: the in-memory stub always succeeds with
`remaining = limit - 1` and `reset = now + 60000`. -/
def rateLimiter (limit : Nat) (nowMs : Nat) : RateLimitResult :=
  { success := true, limit := limit, remaining := limit - 1, reset := nowMs + 60000 }

inductive RateLimitKey where
  | CREATE_BUYER | UPDATE_BUYER
  deriving DecidableEq, Repr

/-- The `limits` table: CREATE_BUYER is 10 per minute, UPDATE_BUYER 20. -/
def rateLimitOf : RateLimitKey → Nat
  | RateLimitKey.CREATE_BUYER => 10
  | RateLimitKey.UPDATE_BUYER => 20

/-- `check(request, limitType)`. -/
def check (key : RateLimitKey) (nowMs : Nat) : RateLimitResult :=
  rateLimiter (rateLimitOf key) nowMs

/-! ## Update path (`[id]/route.ts` PUT, lines 52-141) -/

/-- The body accepted by `updateBuyerSchema`: the full field set plus `id` and
the `updatedAt` concurrency token. The required fields and the defaulted
`status`/`tags` are always present in the parsed object; for the optional
fields (`email`, `bhk`, `budgetMin`, `budgetMax`, `notes`) `none` means the
key is absent from the parsed body — `Object.keys` then skips it in the diff
loop and the spread does not write the column. An empty string is a present
value (`some ""`), distinct from the SQL NULL a stored `none` denotes. -/
structure UpdateData where
  id : String
  fullName : String
  email : Option String
  phone : String
  city : City
  propertyType : PropertyType
  bhk : Option BHK
  purpose : Purpose
  budgetMin : Option Int
  budgetMax : Option Int
  timeline : Timeline
  source : Source
  status : Status
  notes : Option String
  tags : List String
  updatedAt : Nat
  deriving DecidableEq, Repr

/-- JavaScript `!==` for a required primitive key (string/number, always
present in `validatedData`): value inequality. -/
def jsReqDiff {α : Type} [DecidableEq α] (enc : α → FieldVal)
    (stored incoming : α) : Option (FieldVal × FieldVal) :=
  if stored = incoming then none else some (enc stored, enc incoming)

/-- JavaScript `!==` for an optional key. `incoming = none` means the key is
absent from `validatedData`, so `Object.keys` never visits it. When the key
is present, a stored SQL NULL (`none`) satisfies `null !== v` for every
incoming primitive `v` — including the empty string — so it always diffs. -/
def jsOptDiff {α : Type} [DecidableEq α] (enc : Option α → FieldVal)
    (stored incoming : Option α) : Option (FieldVal × FieldVal) :=
  match incoming with
  | none => none
  | some v =>
    match stored with
    | none => some (enc none, enc (some v))
    | some w => if w = v then none else some (enc (some w), enc (some v))

/-- The diff loop (lines 104-112): `Object.keys(validatedData)` without `id`
and `updatedAt`, comparing `currentBuyer[key] !== validatedData[key]` and
keeping `{from, to}` for the keys that differ. For `tags` — always present in
`validatedData` through the zod `.default([])` — the comparison is JavaScript
reference inequality between the jsonb array drizzle materialises for the
stored row and the array the body parse produced; these are never the same
object, so the `tags` key is in the diff of every update that reaches this
loop. -/
def computeDiff (cur : Buyer) (u : UpdateData) : List (String × FieldVal × FieldVal) :=
  List.filterMap (fun p => Option.map (fun q => (p.1, q)) p.2)
    [ ("fullName", jsReqDiff FieldVal.vStr cur.fullName u.fullName)
    , ("email", jsOptDiff FieldVal.vOptStr cur.email u.email)
    , ("phone", jsReqDiff FieldVal.vStr cur.phone u.phone)
    , ("city", jsReqDiff FieldVal.vCity cur.city u.city)
    , ("propertyType", jsReqDiff FieldVal.vPT cur.propertyType u.propertyType)
    , ("bhk", jsOptDiff FieldVal.vBhk cur.bhk u.bhk)
    , ("purpose", jsReqDiff FieldVal.vPurpose cur.purpose u.purpose)
    , ("budgetMin", jsOptDiff FieldVal.vBudget cur.budgetMin u.budgetMin)
    , ("budgetMax", jsOptDiff FieldVal.vBudget cur.budgetMax u.budgetMax)
    , ("timeline", jsReqDiff FieldVal.vTimeline cur.timeline u.timeline)
    , ("source", jsReqDiff FieldVal.vSource cur.source u.source)
    , ("status", jsReqDiff FieldVal.vStatus cur.status u.status)
    , ("notes", jsOptDiff FieldVal.vOptStr cur.notes u.notes)
    , ("tags", some (FieldVal.vTags cur.tags, FieldVal.vTags u.tags)) ]

/-- `db.update(buyers).set({...validatedData, updatedAt: new Date()})`: the
spread writes every key present in the body (including `id`), an optional key
absent from the body leaves its column untouched, the token is overwritten by
the current time, `ownerId`/`createdAt` are untouched. -/
def applyUpdate (cur : Buyer) (u : UpdateData) (now : Nat) : Buyer :=
  { cur with
    id := u.id
    fullName := u.fullName
    email := match u.email with
      | none => cur.email
      | some v => some v
    phone := u.phone
    city := u.city
    propertyType := u.propertyType
    bhk := match u.bhk with
      | none => cur.bhk
      | some v => some v
    purpose := u.purpose
    budgetMin := match u.budgetMin with
      | none => cur.budgetMin
      | some v => some v
    budgetMax := match u.budgetMax with
      | none => cur.budgetMax
      | some v => some v
    timeline := u.timeline
    source := u.source
    status := u.status
    notes := match u.notes with
      | none => cur.notes
      | some v => some v
    tags := u.tags
    updatedAt := now }

inductive PutResult where
  | unauthorized
  | rateLimited
  | notFound
  | forbidden
  | conflict
  | ok (b : Buyer)
  deriving DecidableEq, Repr

/-- PUT `/api/buyers/[id]`: session check, rate limit, lookup, ownership,
optimistic-concurrency token compare, write, and a history append only when
the diff is non-empty. `historyId` stands for the generated uuid. -/
def putBuyer (sessionUser : Option String) (paramId : String) (u : UpdateData)
    (now : Nat) (historyId : String) (s : Store) : PutResult × Store :=
  match sessionUser with
  | none => (PutResult.unauthorized, s)
  | some uid =>
    if (check RateLimitKey.UPDATE_BUYER now).success = false then
      (PutResult.rateLimited, s)
    else
      match s.buyers.find? (fun b => b.id = paramId) with
      | none => (PutResult.notFound, s)
      | some cur =>
        if cur.ownerId ≠ uid then (PutResult.forbidden, s)
        else if cur.updatedAt ≠ u.updatedAt then (PutResult.conflict, s)
        else
          let diff := computeDiff cur u
          let newBuyer := applyUpdate cur u now
          let buyers1 := s.buyers.map fun b => if b.id = paramId then newBuyer else b
          let hist1 :=
            if diff.length > 0 then
              s.history ++ [{ id := historyId, buyerId := paramId, changedBy := uid,
                              changedAt := now, diff := Diff.fieldDiff diff }]
            else s.history
          (PutResult.ok newBuyer, { buyers := buyers1, history := hist1 })

/-! ## Delete path (`[id]/route.ts` DELETE, lines 144-177) -/

inductive DeleteResult where
  | unauthorized
  | notFound
  | forbidden
  | ok
  deriving DecidableEq, Repr

/-- DELETE `/api/buyers/[id]`: lookup, ownership, hard delete; the
buyer_history foreign key has `onDelete: "cascade"` (`seed.ts` line 282), so
the history rows of the buyer are removed in the same delete. -/
def deleteBuyer (sessionUser : Option String) (paramId : String) (s : Store) :
    DeleteResult × Store :=
  match sessionUser with
  | none => (DeleteResult.unauthorized, s)
  | some uid =>
    match s.buyers.find? (fun b => b.id = paramId) with
    | none => (DeleteResult.notFound, s)
    | some cur =>
      if cur.ownerId ≠ uid then (DeleteResult.forbidden, s)
      else
        (DeleteResult.ok,
         { buyers := s.buyers.filter (fun b => ¬ b.id = paramId),
           history := s.history.filter (fun h => ¬ h.buyerId = paramId) })

/-! ## Create path (`export/route.ts` POST, lines 169-219) -/

inductive CreateResult where
  | unauthorized
  | rateLimited
  | validationFailed (issues : List Violation)
  | ok (b : Buyer)
  deriving DecidableEq, Repr

/-- POST `/api/buyers`: session check, rate limit, `createBuyerSchema` parse
(= `buyerSchema`), insert with the session user as owner, and one history
entry with the fixed created marker. `newId`/`historyId` stand for generated
uuids; `status` defaults to New when omitted. -/
def createBuyer (sessionUser : Option String) (r : CandidateBuyer)
    (now : Nat) (newId historyId : String) (s : Store) : CreateResult × Store :=
  match sessionUser with
  | none => (CreateResult.unauthorized, s)
  | some uid =>
    if (check RateLimitKey.CREATE_BUYER now).success = false then
      (CreateResult.rateLimited, s)
    else
      let issues := validateBuyer r
      if issues ≠ [] then (CreateResult.validationFailed issues, s)
      else
        let b : Buyer :=
          { id := newId, fullName := r.fullName, email := r.email, phone := r.phone,
            city := r.city, propertyType := r.propertyType, bhk := r.bhk,
            purpose := r.purpose, budgetMin := r.budgetMin, budgetMax := r.budgetMax,
            timeline := r.timeline, source := r.source,
            status := r.status.getD Status.New, notes := r.notes, tags := r.tags,
            ownerId := uid, createdAt := now, updatedAt := now }
        (CreateResult.ok b,
         { buyers := s.buyers ++ [b],
           history := s.history ++
             [{ id := historyId, buyerId := newId, changedBy := uid,
                changedAt := now, diff := Diff.createdMarker }] })

/-! ## CSV import (`[id]/route.ts` POST import, lines 198-480)

The pipeline is modelled from the point where Papa.parse (external library)
has produced the list of data rows: each cell is an optional trimmed string,
budget cells have been coerced to numbers (invalid-after-stripping → absent)
and the tags cell to a string list, as performed by the `transform` callback
and the row-cleaning map (lines 237-303). -/

structure CsvRow where
  fullName : Option String
  email : Option String
  phone : Option String
  city : Option String
  propertyType : Option String
  bhk : Option String
  purpose : Option String
  budgetMin : Option Int
  budgetMax : Option Int
  timeline : Option String
  source : Option String
  status : Option String
  notes : Option String
  tags : Option (List String)
  deriving DecidableEq, Repr

/-- The per-row transformation (lines 370-385). JavaScript truthiness guards:
an absent or empty string falls back to the default, and a budget of 0 is
falsy and becomes absent. -/
structure TransRow where
  fullName : String
  email : String
  phone : String
  city : String
  propertyType : String
  bhk : Option String
  purpose : String
  budgetMin : Option Int
  budgetMax : Option Int
  timeline : String
  source : String
  status : String
  notes : String
  tags : List String
  deriving DecidableEq, Repr

def transformRow (r : CsvRow) : TransRow :=
  { fullName := jsTrim (r.fullName.getD "")
  , email := match r.email with
      | some e => if e = "" then "" else jsToLower (jsTrim e)
      | none => ""
  , phone := jsTrim (r.phone.getD "")
  , city := jsTrim (r.city.getD "")
  , propertyType := jsTrim (r.propertyType.getD "")
  , bhk := match r.bhk with
      | some b => if b = "" then none else some (jsTrim b)
      | none => none
  , purpose := jsTrim (r.purpose.getD "")
  , budgetMin := match r.budgetMin with
      | some n => if n = 0 then none else some n
      | none => none
  , budgetMax := match r.budgetMax with
      | some n => if n = 0 then none else some n
      | none => none
  , timeline := jsTrim (r.timeline.getD "")
  , source := jsTrim (r.source.getD "")
  , status := match r.status with
      | some st => if st = "" then "New" else jsTrim st
      | none => "New"
  , notes := match r.notes with
      | some n => if n = "" then "" else jsTrim n
      | none => ""
  , tags := match r.tags with
      | some ts => (ts.map jsTrim).filter (fun t => ¬ t = "")
      | none => [] }

/-! Enum parsers for the string cells, from the zod enums. -/

def cityOfString : String → Option City
  | "Chandigarh" => some City.Chandigarh
  | "Mohali" => some City.Mohali
  | "Zirakpur" => some City.Zirakpur
  | "Panchkula" => some City.Panchkula
  | "Other" => some City.Other
  | _ => none

def propertyTypeOfString : String → Option PropertyType
  | "Apartment" => some PropertyType.Apartment
  | "Villa" => some PropertyType.Villa
  | "Plot" => some PropertyType.Plot
  | "Office" => some PropertyType.Office
  | "Retail" => some PropertyType.Retail
  | _ => none

def bhkOfString : String → Option BHK
  | "1" => some BHK.one
  | "2" => some BHK.two
  | "3" => some BHK.three
  | "4" => some BHK.four
  | "Studio" => some BHK.Studio
  | _ => none

def purposeOfString : String → Option Purpose
  | "Buy" => some Purpose.Buy
  | "Rent" => some Purpose.Rent
  | _ => none

def timelineOfString : String → Option Timeline
  | "0-3m" => some Timeline.zeroToThreeM
  | "3-6m" => some Timeline.threeToSixM
  | ">6m" => some Timeline.moreThanSixM
  | "Exploring" => some Timeline.Exploring
  | _ => none

def sourceOfString : String → Option Source
  | "Website" => some Source.Website
  | "Referral" => some Source.Referral
  | "Walk-in" => some Source.WalkIn
  | "Call" => some Source.Call
  | "Other" => some Source.Other
  | _ => none

def statusOfString : String → Option Status
  | "New" => some Status.New
  | "Qualified" => some Status.Qualified
  | "Contacted" => some Status.Contacted
  | "Visited" => some Status.Visited
  | "Negotiation" => some Status.Negotiation
  | "Converted" => some Status.Converted
  | "Dropped" => some Status.Dropped
  | _ => none

/-- A row accepted by `csvBuyerSchema`. -/
structure CsvBuyer where
  fullName : String
  email : Option String
  phone : String
  city : City
  propertyType : PropertyType
  bhk : Option BHK
  purpose : Purpose
  budgetMin : Option Int
  budgetMax : Option Int
  timeline : Timeline
  source : Source
  status : Status
  notes : String
  tags : List String
  deriving DecidableEq, Repr

/-- `csvBuyerSchema.parse` (`validations.ts` lines 120-174): field checks,
the empty-string-to-absent transforms, and the two refinements (with the
JavaScript truthiness guard on the budgets). -/
def csvValidate (t : TransRow) : Except String CsvBuyer := do
  if ¬ (2 ≤ t.fullName.length ∧ t.fullName.length ≤ 80) then
    throw "Invalid fullName length"
  let email ← if t.email = "" then pure none
    else if emailFormatOk t.email then pure (some t.email)
    else throw "Invalid email format"
  if ¬ phoneOk t.phone then throw "Invalid phone"
  let city ← match cityOfString t.city with
    | some c => pure c
    | none => throw "Invalid city"
  let propertyType ← match propertyTypeOfString t.propertyType with
    | some pt => pure pt
    | none => throw "Invalid propertyType"
  let bhk ← match t.bhk with
    | none => pure none
    | some b =>
      if b = "" then pure none
      else match bhkOfString b with
        | some v => pure (some v)
        | none => throw "Invalid bhk"
  let purpose ← match purposeOfString t.purpose with
    | some p => pure p
    | none => throw "Invalid purpose"
  let timeline ← match timelineOfString t.timeline with
    | some tl => pure tl
    | none => throw "Invalid timeline"
  let source ← match sourceOfString t.source with
    | some sc => pure sc
    | none => throw "Invalid source"
  let status ← match statusOfString t.status with
    | some st => pure st
    | none => throw "Invalid status"
  if ¬ (t.notes.length ≤ 1000) then throw "Notes too long"
  if (propertyType = PropertyType.Apartment ∨ propertyType = PropertyType.Villa) ∧
     bhk = none then
    throw "BHK is required for Apartment and Villa properties"
  match t.budgetMin, t.budgetMax with
  | some mn, some mx =>
    if mn ≠ 0 ∧ mx ≠ 0 ∧ mx < mn then
      throw "Maximum budget must be greater than or equal to minimum budget"
    else pure ()
  | _, _ => pure ()
  pure { fullName := t.fullName, email := email, phone := t.phone, city := city,
         propertyType := propertyType, bhk := bhk, purpose := purpose,
         budgetMin := t.budgetMin, budgetMax := t.budgetMax, timeline := timeline,
         source := source, status := status, notes := t.notes, tags := t.tags }

structure ImportError where
  row : Nat
  message : String
  deriving DecidableEq, Repr

/-- The loop state of lines 338-361: accepted rows, per-row errors, and the
two duplicate-tracking sets. The source creates `seenPhones`/`seenEmails`
and consults them but never inserts into them; the model reproduces this
faithfully. -/
structure ImportScan where
  validRows : List CsvBuyer
  errors : List ImportError
  seenPhones : List String
  seenEmails : List String
  deriving DecidableEq, Repr

/-- One iteration of the row loop (lines 363-425). `idx` is the 0-based data
row index; the reported row number is `idx + 2`, accounting for the header
line. The existing-record check matches the drizzle `or(and(phone, owner),
email ? and(email, owner) : undefined)` condition. -/
def processRow (uid : String) (s : Store) (st : ImportScan) (idx : Nat)
    (r : CsvRow) : ImportScan :=
  let rowNumber := idx + 2
  let t := transformRow r
  if ¬ t.phone = "" ∧ t.phone ∈ st.seenPhones then
    { st with errors := st.errors ++
        [{ row := rowNumber,
           message := "Duplicate phone number in row " ++ toString rowNumber }] }
  else if ¬ t.email = "" ∧ t.email ∈ st.seenEmails then
    { st with errors := st.errors ++
        [{ row := rowNumber,
           message := "Duplicate email in row " ++ toString rowNumber }] }
  else
    match csvValidate t with
    | Except.error m =>
      { st with errors := st.errors ++ [{ row := rowNumber, message := m }] }
    | Except.ok v =>
      let existsDup := s.buyers.any fun b =>
        (decide (b.phone = v.phone) && decide (b.ownerId = uid)) ||
        (match v.email with
         | some e => decide (b.email = some e) && decide (b.ownerId = uid)
         | none => false)
      if existsDup then
        { st with errors := st.errors ++
            [{ row := rowNumber,
               message := "A buyer with this phone number or email already exists" }] }
      else
        { st with validRows := st.validRows ++ [v] }

/-- The `for (let i = 0; i < rows.length; i++)` loop, carrying the 0-based
index. -/
def processRowsAux (uid : String) (s : Store) : Nat → List CsvRow → ImportScan → ImportScan
  | _, [], st => st
  | idx, r :: rs, st => processRowsAux uid s (idx + 1) rs (processRow uid s st idx r)

/-- The whole row loop from index 0 and the empty loop state. -/
def processRows (uid : String) (s : Store) (rows : List CsvRow) : ImportScan :=
  processRowsAux uid s 0 rows
    { validRows := [], errors := [], seenPhones := [], seenEmails := [] }

/-- The transactional bulk insert (lines 428-455): all accepted rows become
buyers owned by the session user, each with one history entry whose diff is
from-nothing-to-the-full-record. `idGen`/`histIdGen` stand for the generated
uuids (the source omits the buyer id key from the history payload; the model
stores the full record). -/
def insertValidRows (uid : String) (now : Nat) (idGen histIdGen : Nat → String)
    (vs : List CsvBuyer) (s : Store) : Store :=
  let newBuyers := vs.enum.map fun p =>
    { id := idGen p.1, fullName := p.2.fullName, email := p.2.email,
      phone := p.2.phone, city := p.2.city, propertyType := p.2.propertyType,
      bhk := p.2.bhk, purpose := p.2.purpose, budgetMin := p.2.budgetMin,
      budgetMax := p.2.budgetMax, timeline := p.2.timeline, source := p.2.source,
      status := p.2.status, notes := some p.2.notes, tags := p.2.tags,
      ownerId := uid, createdAt := now, updatedAt := now : Buyer }
  { buyers := s.buyers ++ newBuyers,
    history := s.history ++ newBuyers.enum.map fun p =>
      { id := histIdGen p.1, buyerId := p.2.id, changedBy := uid,
        changedAt := now, diff := Diff.createDiff p.2 } }

/-- The JSON result object (lines 457-468). -/
structure ImportResponse where
  success : Bool
  imported : Nat
  errors : List ImportError
  validCount : Nat
  totalCount : Nat
  hasMoreErrors : Bool
  deriving DecidableEq, Repr

/-- POST `/api/buyers/import` from the parsed row list onward: empty-file and
200-row-cap whole-file rejections, the row loop, the transactional insert,
and the result object (`errors` capped at 100 entries). -/
def importBuyers (sessionUser : Option String) (rows : List CsvRow) (now : Nat)
    (idGen histIdGen : Nat → String) (s : Store) :
    Except String ImportResponse × Store :=
  match sessionUser with
  | none => (Except.error "Unauthorized", s)
  | some uid =>
    if rows.length = 0 then (Except.error "CSV file is empty", s)
    else if rows.length > 200 then
      (Except.error "CSV file too large. Maximum 200 rows allowed.", s)
    else
      let scan := processRows uid s rows
      let s1 := if scan.validRows.length > 0 then
          insertValidRows uid now idGen histIdGen scan.validRows s
        else s
      (Except.ok
        { success := decide (scan.errors.length = 0)
        , imported := scan.validRows.length
        , errors := scan.errors.take 100
        , validCount := scan.validRows.length
        , totalCount := rows.length
        , hasMoreErrors := decide (scan.errors.length > 100) }, s1)

/-! ## Listing and export (`export/route.ts`)

The list GET (lines 79-166) builds a where-clause from the validated query
parameters, runs one count query and one paginated select over the same
clause, and derives the page count with `Math.ceil(total / limit)` (exact
integer ceiling for these magnitudes, modelled as `(total + limit - 1) /
limit`). The export GET (lines 10-67) additionally restricts to
`ownerId = session.user.id` and has no pagination. -/

inductive SortField where
  | fullName | createdAt | updatedAt
  deriving DecidableEq, Repr

inductive SortOrder where
  | asc | desc
  deriving DecidableEq, Repr

/-- The parameters after `searchSchema.parse` (`validations.ts` lines
177-187): page defaults to 1 (positive), limit to 10 (positive, at most 50),
sort to updatedAt descending. -/
structure SearchParams where
  query : Option String
  city : Option City
  propertyType : Option PropertyType
  status : Option Status
  timeline : Option Timeline
  page : Nat
  limit : Nat
  sortBy : SortField
  sortOrder : SortOrder
  deriving DecidableEq, Repr

/-- Case-insensitive substring test, modelling SQL `ilike '%q%'`. -/
def containsSub (needle hay : String) : Bool :=
  let n := (jsToLower needle).toList
  let h := (jsToLower hay).toList
  (List.range (h.length + 1)).any fun i => n.isPrefixOf (h.drop i)

/-- The free-text condition: `ilike` on fullName, email, phone, joined by OR.
A NULL email column never matches. -/
def queryMatches (q : String) (b : Buyer) : Bool :=
  containsSub q b.fullName ||
  (match b.email with
   | some e => containsSub q e
   | none => false) ||
  containsSub q b.phone

/-- The conjunction of the pushed conditions (lines 99-127). A truthiness
guard skips an empty query string; the four enum filters are equality
conditions added only when present. The owner is never constrained. -/
def matchesFilter (p : SearchParams) (b : Buyer) : Bool :=
  (match p.query with
   | some q => if q = "" then true else queryMatches q b
   | none => true) &&
  (match p.city with
   | some c => decide (b.city = c)
   | none => true) &&
  (match p.propertyType with
   | some t => decide (b.propertyType = t)
   | none => true) &&
  (match p.status with
   | some st => decide (b.status = st)
   | none => true) &&
  (match p.timeline with
   | some t => decide (b.timeline = t)
   | none => true)

/-- The ORDER BY comparison for the chosen sortable column and direction. -/
def sortLe (p : SearchParams) (a b : Buyer) : Bool :=
  match p.sortBy, p.sortOrder with
  | SortField.fullName, SortOrder.asc => decide (a.fullName ≤ b.fullName)
  | SortField.fullName, SortOrder.desc => decide (b.fullName ≤ a.fullName)
  | SortField.createdAt, SortOrder.asc => decide (a.createdAt ≤ b.createdAt)
  | SortField.createdAt, SortOrder.desc => decide (b.createdAt ≤ a.createdAt)
  | SortField.updatedAt, SortOrder.asc => decide (a.updatedAt ≤ b.updatedAt)
  | SortField.updatedAt, SortOrder.desc => decide (b.updatedAt ≤ a.updatedAt)

/-- Deterministic sort (insertion sort); the spec leaves tie order undefined
but requires determinism for a fixed input. -/
def insertLe (le : Buyer → Buyer → Bool) (b : Buyer) : List Buyer → List Buyer
  | [] => [b]
  | x :: xs => if le b x then b :: x :: xs else x :: insertLe le b xs

def sortByLe (le : Buyer → Buyer → Bool) : List Buyer → List Buyer
  | [] => []
  | x :: xs => insertLe le x (sortByLe le xs)

structure ListResponse where
  data : List Buyer
  page : Nat
  limit : Nat
  total : Nat
  pages : Nat
  deriving DecidableEq, Repr

/-- GET `/api/buyers` (list). The session user id is received (the handler
returns 401 without one) but never used in the query. -/
def listBuyers (sessionUserId : String) (p : SearchParams) (s : Store) :
    ListResponse :=
  let total := (s.buyers.filter (fun b => matchesFilter p b)).length
  let sorted := sortByLe (sortLe p) (s.buyers.filter (fun b => matchesFilter p b))
  let pageData := (sorted.drop ((p.page - 1) * p.limit)).take p.limit
  { data := pageData, page := p.page, limit := p.limit, total := total,
    pages := (total + p.limit - 1) / p.limit }

/-- GET `/api/buyers/export`: the conditions start from
`eq(buyers.ownerId, session.user.id)` and add the same free-text or-clause
when a nonempty query parameter is present. -/
def exportBuyers (sessionUserId : String) (query : Option String) (s : Store) :
    List Buyer :=
  s.buyers.filter fun b =>
    decide (b.ownerId = sessionUserId) &&
    (match query with
     | some q => if q = "" then true else queryMatches q b
     | none => true)

/-! ## Concrete records for evaluating the model -/

def emptyStore : Store := { buyers := [], history := [] }

def sampleBuyer : Buyer :=
  { id := "b1", fullName := "John Doe", email := none, phone := "9876543210",
    city := City.Chandigarh, propertyType := PropertyType.Plot, bhk := none,
    purpose := Purpose.Buy, budgetMin := none, budgetMax := none,
    timeline := Timeline.threeToSixM, source := Source.Website,
    status := Status.New, notes := none, tags := [],
    ownerId := "u1", createdAt := 5, updatedAt := 10 }

def sampleStore : Store := { buyers := [sampleBuyer], history := [] }

/-- A full update body carrying exactly the stored values of `sampleBuyer`
and the correct concurrency token. -/
def sampleUpdateSame : UpdateData :=
  { id := "b1", fullName := "John Doe", email := none, phone := "9876543210",
    city := City.Chandigarh, propertyType := PropertyType.Plot, bhk := none,
    purpose := Purpose.Buy, budgetMin := none, budgetMax := none,
    timeline := Timeline.threeToSixM, source := Source.Website,
    status := Status.New, notes := none, tags := [], updatedAt := 10 }

def sampleUpdateStale : UpdateData := { sampleUpdateSame with updatedAt := 11 }

def sampleUpdateStatus : UpdateData :=
  { sampleUpdateSame with status := Status.Qualified }

def otherBuyer : Buyer :=
  { sampleBuyer with
    id := "b2", fullName := "Jane Roe", phone := "9876543211",
    ownerId := "u2", updatedAt := 12 }

def twoOwnerStore : Store := { buyers := [sampleBuyer, otherBuyer], history := [] }

def sampleHistoryEntry : HistoryEntry :=
  { id := "h0", buyerId := "b1", changedBy := "u1", changedAt := 6,
    diff := Diff.createdMarker }

def historyStore : Store :=
  { buyers := [sampleBuyer], history := [sampleHistoryEntry] }

def defaultParams : SearchParams :=
  { query := none, city := none, propertyType := none, status := none,
    timeline := none, page := 1, limit := 10,
    sortBy := SortField.updatedAt, sortOrder := SortOrder.desc }

/-- A valid CSV data row. -/
def csvRowA : CsvRow :=
  { fullName := some "John Doe", email := none, phone := some "9876543210",
    city := some "Chandigarh", propertyType := some "Plot", bhk := none,
    purpose := some "Buy", budgetMin := none, budgetMax := none,
    timeline := some "3-6m", source := some "Website", status := none,
    notes := none, tags := none }

/-- A second valid CSV data row with a different name but the same phone
number as `csvRowA`. -/
def csvRowB : CsvRow := { csvRowA with fullName := some "Jane Roe" }

/-- An all-empty CSV data row (used to build oversized uploads). -/
def blankCsvRow : CsvRow :=
  { fullName := none, email := none, phone := none, city := none,
    propertyType := none, bhk := none, purpose := none, budgetMin := none,
    budgetMax := none, timeline := none, source := none, status := none,
    notes := none, tags := none }

/-- Claim C10: for every request the rate-limit check returns success with
`remaining = limit - 1`, so the 429 (rate-limited) branch of the update and
create handlers is unreachable: no request is ever rejected for exceeding a
rate limit. -/
theorem c10_rate_limit_unreachable :
    (∀ key nowMs, (check key nowMs).success = true ∧
       (check key nowMs).remaining = rateLimitOf key - 1) ∧
    (∀ su pid u now hid s,
       (putBuyer su pid u now hid s).1 ≠ PutResult.rateLimited) ∧
    (∀ su r now nid hid s,
       (createBuyer su r now nid hid s).1 ≠ CreateResult.rateLimited) := by
  refine ⟨fun key nowMs => ⟨rfl, rfl⟩, ?_, ?_⟩
  · intro su pid u now hid s
    unfold putBuyer
    cases su with
    | none => simp
    | some uid =>
      simp only [check, rateLimiter]
      repeat' split
      all_goals simp_all
  · intro su r now nid hid s
    unfold createBuyer
    cases su with
    | none => simp
    | some uid =>
      simp only [check, rateLimiter]
      repeat' split
      all_goals simp_all

/-- Claim C2: an update whose supplied `updatedAt` token differs from the
currently stored `updatedAt` fails with a conflict and leaves the store
(record and history) exactly as before the attempt. -/
theorem c2_stale_token_conflict (uid pid : String) (u : UpdateData) (now : Nat)
    (hid : String) (s : Store) (cur : Buyer)
    (hfind : s.buyers.find? (fun b => b.id = pid) = some cur)
    (hown : cur.ownerId = uid)
    (htok : cur.updatedAt ≠ u.updatedAt) :
    putBuyer (some uid) pid u now hid s = (PutResult.conflict, s) := by
  unfold putBuyer
  simp [check, rateLimiter, hfind, hown, htok]

/-- Witness for C2 at a concrete store and a stale token (stored 10, sent
11): conflict, store untouched. -/
theorem c2_stale_token_conflict_witness :
    sampleBuyer.updatedAt ≠ sampleUpdateStale.updatedAt ∧
    putBuyer (some "u1") "b1" sampleUpdateStale 99 "h1" sampleStore =
      (PutResult.conflict, sampleStore) :=
  ⟨by decide,
   c2_stale_token_conflict "u1" "b1" sampleUpdateStale 99 "h1" sampleStore
     sampleBuyer rfl rfl (by decide)⟩

/-- Claim C5: an authenticated CSV upload with more than 200 data rows is
rejected as a whole (the dedicated too-large error) and the store is
unchanged — no truncation to the first 200 rows. -/
theorem c5_row_cap (uid : String) (rows : List CsvRow) (now : Nat)
    (idGen histIdGen : Nat → String) (s : Store)
    (h : 200 < rows.length) :
    importBuyers (some uid) rows now idGen histIdGen s =
      (Except.error "CSV file too large. Maximum 200 rows allowed.", s) := by
  unfold importBuyers
  have h0 : ¬ rows.length = 0 := by omega
  simp [h0, h]

/-- Witness for C5: 201 blank rows are rejected outright with the store
untouched. -/
theorem c5_row_cap_witness :
    200 < (List.replicate 201 blankCsvRow).length ∧
    importBuyers (some "u1") (List.replicate 201 blankCsvRow) 0
        (fun _ => "x") (fun _ => "y") emptyStore =
      (Except.error "CSV file too large. Maximum 200 rows allowed.", emptyStore) :=
  ⟨by rw [List.length_replicate]; omega,
   c5_row_cap "u1" (List.replicate 201 blankCsvRow) 0
     (fun _ => "x") (fun _ => "y") emptyStore
     (by rw [List.length_replicate]; omega)⟩

/-- Filtering for a buyer id after the cascade removed that id yields
nothing. -/
theorem history_filter_erased (l : List HistoryEntry) (pid : String) :
    (l.filter (fun h => ¬ h.buyerId = pid)).filter
      (fun h => h.buyerId = pid) = [] := by
  induction l with
  | nil => rfl
  | cons a t ih => by_cases ha : a.buyerId = pid <;> simp [List.filter, ha, ih]

/-- Claim C8: an owner delete succeeds and, through the cascade on the
buyer_history foreign key, leaves zero history entries referencing the
deleted buyer. -/
theorem c8_delete_cascades_history (uid pid : String) (s : Store) (cur : Buyer)
    (hfind : s.buyers.find? (fun b => b.id = pid) = some cur)
    (hown : cur.ownerId = uid) :
    (deleteBuyer (some uid) pid s).1 = DeleteResult.ok ∧
    ((deleteBuyer (some uid) pid s).2.history.filter
       (fun h => h.buyerId = pid)) = [] := by
  unfold deleteBuyer
  simp [hfind, hown, history_filter_erased]

/-- Witness for C8: deleting `sampleBuyer` from a store holding one of its
history rows leaves no history row referencing it. -/
theorem c8_delete_cascades_history_witness :
    (deleteBuyer (some "u1") "b1" historyStore).1 = DeleteResult.ok ∧
    ((deleteBuyer (some "u1") "b1" historyStore).2.history.filter
       (fun h => h.buyerId = "b1")) = [] :=
  c8_delete_cascades_history "u1" "b1" historyStore sampleBuyer rfl rfl

/-- Claim C3 is violated by the code: because `validatedData.tags` (always
present via the zod `.default([])`) is never the same array object as the
stored row's jsonb array, the `!==` comparison puts the `tags` key in every
diff. Updating `sampleBuyer` with an identical field set and the correct
token therefore appends one history entry whose diff holds `tags`, instead
of the zero entries the claim requires; and changing exactly the status
field yields a two-key diff (`status` and `tags`), not the single key `X`
the claim requires. -/
theorem c3_every_update_diffs_tags :
    computeDiff sampleBuyer sampleUpdateSame =
      [("tags", FieldVal.vTags [], FieldVal.vTags [])] ∧
    (putBuyer (some "u1") "b1" sampleUpdateSame 11 "h1" sampleStore).2.history =
      [{ id := "h1", buyerId := "b1", changedBy := "u1", changedAt := 11,
         diff := Diff.fieldDiff [("tags", FieldVal.vTags [], FieldVal.vTags [])] }] ∧
    (computeDiff sampleBuyer sampleUpdateStatus).map (fun p => p.1) =
      ["status", "tags"] :=
  ⟨rfl, rfl, rfl⟩

/-- `(t + k - 1) / k` is an upper ceiling: `t ≤ ((t + k - 1) / k) * k`. -/
theorem le_ceil_mul (t k : Nat) (hk : 0 < k) : t ≤ ((t + k - 1) / k) * k := by
  have hd := Nat.div_add_mod (t + k - 1) k
  have hm : (t + k - 1) % k < k := Nat.mod_lt _ hk
  have h2 : ((t + k - 1) / k) * k = k * ((t + k - 1) / k) := Nat.mul_comm _ _
  omega

/-- `(t + k - 1) / k` is the least such bound: any `m` with `t ≤ m * k`
dominates it. -/
theorem ceil_mul_le (t k m : Nat) (hk : 0 < k) (h : t ≤ m * k) :
    (t + k - 1) / k ≤ m := by
  have hd := Nat.div_add_mod (t + k - 1) k
  have hm : (t + k - 1) % k < k := Nat.mod_lt _ hk
  by_contra hq
  push_neg at hq
  have h3 : k * (m + 1) ≤ k * ((t + k - 1) / k) := Nat.mul_le_mul_left k hq
  have h4 : k * (m + 1) = k * m + k := by ring
  have h5 : m * k = k * m := Nat.mul_comm m k
  omega

/-- Claim C7: for a listing query with `page ≥ 1` and `limit ≤ 50`, the
response carries the requested page of the sorted filtered records, a total
counted with the same filter predicate over the whole store, and a page count
equal to the ceiling of total over page size (characterised as the least
`m` with `total ≤ m * limit`). -/
theorem c7_listing (uid : String) (p : SearchParams) (s : Store)
    (hpage : 1 ≤ p.page) (hlim : 0 < p.limit) (hlim50 : p.limit ≤ 50) :
    (listBuyers uid p s).total =
      List.countP (fun b => matchesFilter p b) s.buyers ∧
    (listBuyers uid p s).data =
      ((sortByLe (sortLe p) (s.buyers.filter (fun b => matchesFilter p b))).drop
         ((p.page - 1) * p.limit)).take p.limit ∧
    (listBuyers uid p s).total ≤ (listBuyers uid p s).pages * p.limit ∧
    (∀ m, (listBuyers uid p s).total ≤ m * p.limit →
       (listBuyers uid p s).pages ≤ m) := by
  refine ⟨by simp [listBuyers, List.countP_eq_length_filter], rfl, ?_, ?_⟩
  · exact le_ceil_mul _ _ hlim
  · intro m hm
    exact ceil_mul_le _ _ m hlim hm

/-- Witness for C7 at the default parameters over `sampleStore`. -/
theorem c7_listing_witness :
    (listBuyers "u1" defaultParams sampleStore).total =
      List.countP (fun b => matchesFilter defaultParams b) sampleStore.buyers ∧
    (listBuyers "u1" defaultParams sampleStore).data =
      ((sortByLe (sortLe defaultParams)
         (sampleStore.buyers.filter
           (fun b => matchesFilter defaultParams b))).drop
         ((defaultParams.page - 1) * defaultParams.limit)).take
        defaultParams.limit ∧
    (listBuyers "u1" defaultParams sampleStore).total ≤
      (listBuyers "u1" defaultParams sampleStore).pages * defaultParams.limit ∧
    (∀ m, (listBuyers "u1" defaultParams sampleStore).total ≤
        m * defaultParams.limit →
       (listBuyers "u1" defaultParams sampleStore).pages ≤ m) :=
  c7_listing "u1" defaultParams sampleStore (by decide) (by decide) (by decide)

theorem mem_insertLe (le : Buyer → Buyer → Bool) (b a : Buyer)
    (l : List Buyer) : a ∈ insertLe le b l ↔ a = b ∨ a ∈ l := by
  induction l with
  | nil => simp [insertLe]
  | cons x xs ih =>
    unfold insertLe
    split
    · simp [List.mem_cons]
    · simp only [List.mem_cons, ih]
      tauto

theorem mem_sortByLe (le : Buyer → Buyer → Bool) (a : Buyer) (l : List Buyer) :
    a ∈ sortByLe le l ↔ a ∈ l := by
  induction l with
  | nil => simp [sortByLe]
  | cons x xs ih => simp [sortByLe, mem_insertLe, ih]

theorem length_insertLe (le : Buyer → Buyer → Bool) (b : Buyer)
    (l : List Buyer) : (insertLe le b l).length = l.length + 1 := by
  induction l with
  | nil => rfl
  | cons x xs ih =>
    unfold insertLe
    split
    · simp
    · simp [ih]

theorem length_sortByLe (le : Buyer → Buyer → Bool) (l : List Buyer) :
    (sortByLe le l).length = l.length := by
  induction l with
  | nil => rfl
  | cons x xs ih => simp [sortByLe, length_insertLe, ih]

/-- Claim C9: the listing result is independent of the identity of the
authenticated requesting user; the filter predicate never reads the owner
field; export, by contrast, returns only the requesting user's own records;
and any record matching the filter — whoever owns it — appears in the listing
page (shown for page 1 with a limit covering the matches). -/
theorem c9_listing_owner_blind (p : SearchParams) (s : Store) :
    (∀ u1 u2, listBuyers u1 p s = listBuyers u2 p s) ∧
    (∀ b o, matchesFilter p { b with ownerId := o } = matchesFilter p b) ∧
    (∀ u q b, b ∈ exportBuyers u q s → b.ownerId = u) ∧
    (∀ u b, b ∈ s.buyers → matchesFilter p b = true → p.page = 1 →
       (s.buyers.filter (fun x => matchesFilter p x)).length ≤ p.limit →
       b ∈ (listBuyers u p s).data) := by
  refine ⟨fun u1 u2 => rfl, ?_, ?_, ?_⟩
  · intro b o
    cases b
    rfl
  · intro u q b hb
    have h2 := (List.mem_filter.mp hb).2
    simp only [Bool.and_eq_true, decide_eq_true_eq] at h2
    exact h2.1
  · intro u b hb hm hpage hlen
    have hf : b ∈ s.buyers.filter (fun x => matchesFilter p x) :=
      List.mem_filter.mpr ⟨hb, hm⟩
    have hs : b ∈ sortByLe (sortLe p) (s.buyers.filter (fun x => matchesFilter p x)) :=
      (mem_sortByLe _ _ _).mpr hf
    simp only [listBuyers]
    rw [hpage]
    simp only [Nat.sub_self, Nat.zero_mul, List.drop_zero]
    rw [List.take_of_length_le]
    · exact hs
    · rw [length_sortByLe]
      exact hlen

/-- Witness for C9: under the default query, user u1's listing over a store
holding a record owned by u2 contains that record. -/
theorem c9_listing_owner_blind_witness :
    otherBuyer.ownerId ≠ "u1" ∧
    otherBuyer ∈ (listBuyers "u1" defaultParams twoOwnerStore).data :=
  ⟨by decide,
   (c9_listing_owner_blind defaultParams twoOwnerStore).2.2.2 "u1" otherBuyer
     (by decide) (by decide) rfl (by decide)⟩

/-- One loop iteration only ever appends errors carrying the current row
number `idx + 2`. -/
theorem processRow_errors (uid : String) (s : Store) (st : ImportScan)
    (idx : Nat) (r : CsvRow) :
    ∀ e ∈ (processRow uid s st idx r).errors, e ∈ st.errors ∨ e.row = idx + 2 := by
  intro e he
  unfold processRow at he
  dsimp only at he
  repeat' split at he
  all_goals
    first
      | exact Or.inl he
      | (rcases List.mem_append.mp he with h | h
         · exact Or.inl h
         · exact Or.inr (by rw [List.mem_singleton.mp h]))

/-- Every error produced by the loop belongs to a data row index in range,
with reported row number `index + 2`. -/
theorem processRowsAux_errors (uid : String) (s : Store) :
    ∀ (rows : List CsvRow) (idx : Nat) (st : ImportScan),
      ∀ e ∈ (processRowsAux uid s idx rows st).errors,
        e ∈ st.errors ∨ ∃ i, idx ≤ i ∧ i < idx + rows.length ∧ e.row = i + 2 := by
  intro rows
  induction rows with
  | nil => intro idx st e he; exact Or.inl he
  | cons r rs ih =>
    intro idx st e he
    rw [processRowsAux] at he
    rcases ih (idx + 1) (processRow uid s st idx r) e he with h | ⟨i, hi1, hi2, hi3⟩
    · rcases processRow_errors uid s st idx r e h with h2 | h2
      · exact Or.inl h2
      · exact Or.inr ⟨idx, le_refl _, by simp, h2⟩
    · exact Or.inr ⟨i, by omega, by simp only [List.length_cons]; omega, hi3⟩

/-- The transactional insert grows the buyers table by exactly the number of
accepted rows. -/
theorem insertValidRows_length (uid : String) (now : Nat)
    (idGen histIdGen : Nat → String) (vs : List CsvBuyer) (s : Store) :
    (insertValidRows uid now idGen histIdGen vs s).buyers.length =
      s.buyers.length + vs.length := by
  simp [insertValidRows]

/-- Claim C4: a completed import reports the total, valid and imported row
counts (imported matching the store growth), an error list capped at 100
whose row numbers are 1-based counting the header line, the truncation flag
set exactly when more than 100 row errors occurred, and full success exactly
when zero row errors occurred. -/
theorem c4_import_report (uid : String) (rows : List CsvRow) (now : Nat)
    (idGen histIdGen : Nat → String) (s : Store)
    (h0 : rows ≠ []) (h200 : rows.length ≤ 200) :
    ∃ resp,
      (importBuyers (some uid) rows now idGen histIdGen s).1 = Except.ok resp ∧
      resp.totalCount = rows.length ∧
      resp.validCount = (processRows uid s rows).validRows.length ∧
      resp.imported = resp.validCount ∧
      (importBuyers (some uid) rows now idGen histIdGen s).2.buyers.length =
        s.buyers.length + resp.imported ∧
      resp.errors = (processRows uid s rows).errors.take 100 ∧
      resp.errors.length ≤ 100 ∧
      (∀ e ∈ resp.errors, ∃ i, i < rows.length ∧ e.row = i + 2) ∧
      (resp.hasMoreErrors = true ↔ 100 < (processRows uid s rows).errors.length) ∧
      (resp.success = true ↔ (processRows uid s rows).errors = []) := by
  have hne : ¬ rows.length = 0 := by
    cases rows
    · exact absurd rfl h0
    · simp
  have hgt : ¬ 200 < rows.length := by omega
  have hred : importBuyers (some uid) rows now idGen histIdGen s =
      (Except.ok
        { success := decide ((processRows uid s rows).errors.length = 0)
        , imported := (processRows uid s rows).validRows.length
        , errors := (processRows uid s rows).errors.take 100
        , validCount := (processRows uid s rows).validRows.length
        , totalCount := rows.length
        , hasMoreErrors := decide (100 < (processRows uid s rows).errors.length) },
       if 0 < (processRows uid s rows).validRows.length then
         insertValidRows uid now idGen histIdGen (processRows uid s rows).validRows s
       else s) := by
    unfold importBuyers
    simp [hne, hgt]
  refine ⟨_, by rw [hred], rfl, rfl, rfl, ?_, rfl, ?_, ?_, ?_, ?_⟩
  · rw [hred]
    by_cases hv : 0 < (processRows uid s rows).validRows.length
    · simp only [hv, if_pos]
      rw [insertValidRows_length]
    · simp only [hv, if_neg, not_false_iff]
      omega
  · simp only
    exact (List.length_take_le _ _)
  · intro e he
    have h1 : e ∈ (processRows uid s rows).errors := List.take_subset _ _ he
    rcases processRowsAux_errors uid s rows 0 _ e h1 with h | ⟨i, _, hi2, hi3⟩
    · exact absurd h (List.not_mem_nil e)
    · exact ⟨i, by omega, hi3⟩
  · simp
  · simp [List.length_eq_zero]

/-- Witness for C4: importing the single valid row `csvRowA` into the empty
store. -/
theorem c4_import_report_witness :
    ([csvRowA] : List CsvRow) ≠ [] ∧
    (∃ resp,
      (importBuyers (some "u1") [csvRowA] 7 (fun i => "b" ++ toString i)
          (fun i => "h" ++ toString i) emptyStore).1 = Except.ok resp ∧
      resp.totalCount = ([csvRowA] : List CsvRow).length ∧
      resp.validCount = (processRows "u1" emptyStore [csvRowA]).validRows.length ∧
      resp.imported = resp.validCount ∧
      (importBuyers (some "u1") [csvRowA] 7 (fun i => "b" ++ toString i)
          (fun i => "h" ++ toString i) emptyStore).2.buyers.length =
        emptyStore.buyers.length + resp.imported ∧
      resp.errors = (processRows "u1" emptyStore [csvRowA]).errors.take 100 ∧
      resp.errors.length ≤ 100 ∧
      (∀ e ∈ resp.errors, ∃ i, i < ([csvRowA] : List CsvRow).length ∧ e.row = i + 2) ∧
      (resp.hasMoreErrors = true ↔
        100 < (processRows "u1" emptyStore [csvRowA]).errors.length) ∧
      (resp.success = true ↔ (processRows "u1" emptyStore [csvRowA]).errors = [])) :=
  ⟨by simp,
   c4_import_report "u1" [csvRowA] 7 (fun i => "b" ++ toString i)
     (fun i => "h" ++ toString i) emptyStore (by simp) (by simp)⟩

/-- Claim C1 is violated by the code: importing two rows that share the phone
number 9876543210 into the empty store records no row-level failure and
inserts both rows — `seenPhones`/`seenEmails` are consulted but never added
to, so the within-batch duplicate check can never fire. -/
theorem c1_duplicate_phone_both_imported :
    (transformRow csvRowA).phone = (transformRow csvRowB).phone ∧
    (importBuyers (some "u1") [csvRowA, csvRowB] 7
        (fun i => "b" ++ toString i) (fun i => "h" ++ toString i)
        emptyStore).1 =
      Except.ok
        { success := true, imported := 2, errors := [], validCount := 2,
          totalCount := 2, hasMoreErrors := false } ∧
    ((importBuyers (some "u1") [csvRowA, csvRowB] 7
        (fun i => "b" ++ toString i) (fun i => "h" ++ toString i)
        emptyStore).2.buyers.map (fun b => b.phone)) =
      ["9876543210", "9876543210"] :=
  ⟨rfl, rfl, rfl⟩

end LeadBuyers
